import Mathlib

/-!
Shallow embedding of the LeapfrogDAO governance program
(`src/governance.rs`) and verification of its specification.

The source file contains the data model and the two instruction handlers
`process_initialize_realm` and `process_create_proposal`; the remaining
handlers (`process_cast_vote`, `process_execute_proposal`,
`process_stake_tokens`, `process_unstake_tokens`) are dispatched from
`process_instruction` but their bodies are not present in the source.
Those are modelled from the specification and are marked as such in their
doc comments.

Conventions of the embedding:
* `u64` values are `Nat`; where Rust performs a two's-complement cast or a
  wrapping operation the modulus `2 ^ 64` is explicit.
* `i64` values (the Solana clock's `unix_timestamp`) are `Int`; the
  `as u64` cast and wrapping `i64` addition are modelled explicitly.
* Solana accounts are reduced to their key, signer flag and owner; account
  data stores are association lists from account key to decoded record.
  Account creation, rent and serialization plumbing are out of scope per
  the specification and are not modelled.
-/

/-- Two's-complement wrap of an integer into the `i64` range, the behaviour
of overflowing `i64` arithmetic compiled without overflow checks. -/
def i64wrap (x : Int) : Int :=
  (x + 2 ^ 63) % 2 ^ 64 - 2 ^ 63

/-- The Rust `as u64` cast from `i64`: reinterpret modulo `2 ^ 64`. -/
def u64OfI64 (x : Int) : Nat :=
  (x % 2 ^ 64).toNat

/-- Account key; `Pubkey` in the source, reduced to an opaque identifier. -/
abbrev Pubkey := Nat

/-- `MintMaxVoteWeightSource` from the source. -/
inductive MintMaxVoteWeightSource where
  | SupplyFraction (fraction : Nat)
  | Absolute (value : Nat)
deriving DecidableEq, Repr

/-- `VoteType` from the source. -/
inductive VoteType where
  | SingleChoice
  | MultiChoice (max_voter_options : Nat)
  | Weighted
deriving DecidableEq, Repr

/-- `Vote` from the source: the cast ballot.  Option indices are `u8`. -/
inductive Vote where
  | SingleChoice (option_index : Nat)
  | MultiChoice (option_indices : List Nat)
  | Weighted (weights : List (Nat × Nat))
deriving DecidableEq, Repr

/-- `ProposalState` from the source. -/
inductive ProposalState where
  | Draft
  | Active
  | Approved
  | Rejected
  | Executed
  | Expired
deriving DecidableEq, Repr

/-- `AccountType` from the source. -/
inductive AccountType where
  | Uninitialized
  | Realm
  | Proposal
  | TokenOwnerRecord
  | VoteRecord
deriving DecidableEq, Repr

/-- `Realm` account from the source (64-byte reserved padding omitted). -/
structure Realm where
  account_type : AccountType
  name : String
  community_mint : Pubkey
  council_mint : Option Pubkey
  min_community_tokens_to_create_proposal : Nat
  community_mint_max_vote_weight_source : MintMaxVoteWeightSource
  use_quadratic_voting : Bool
deriving DecidableEq, Repr

/-- `Proposal` account from the source (reserved padding omitted).
`vote_results` is the source's `HashMap<u8, u64>` modelled as an
association list in insertion order. -/
structure Proposal where
  account_type : AccountType
  governance : Pubkey
  proposal_owner : Pubkey
  name : String
  description_link : String
  created_at : Nat
  state : ProposalState
  vote_type : VoteType
  options : List String
  use_denial_quorum : Bool
  voting_starts_at : Nat
  voting_ends_at : Nat
  vote_results : List (Nat × Nat)
  total_vote_weight : Nat
deriving DecidableEq, Repr

/-- `TokenOwnerRecord` account from the source (reserved padding omitted). -/
structure TokenOwnerRecord where
  account_type : AccountType
  realm : Pubkey
  governing_token_mint : Pubkey
  governing_token_owner : Pubkey
  governing_token_deposit_amount : Nat
  unrelinquished_votes_count : Nat
  earliest_unstaking_time : Nat
deriving DecidableEq, Repr

/-- `VoteRecord` account from the source (reserved padding omitted). -/
structure VoteRecord where
  account_type : AccountType
  proposal : Pubkey
  governing_token_owner : Pubkey
  vote : Vote
  stake_amount : Nat
  vote_weight : Nat
  is_relinquished : Bool
deriving DecidableEq, Repr

/-- Error kinds.  The first two are the `ProgramError` variants the source
returns; the remainder are the specification's error taxonomy (section 7),
used by the spec-modelled handlers. -/
inductive GovError where
  | MissingRequiredSignature
  | InvalidAccountData
  | InvalidProposalConfig
  | InsufficientStake
  | VotingClosed
  | AlreadyVoted
  | InvalidBallot
  | InvalidStateTransition
  | AlreadyExecuted
  | CooldownActive
  | UnrelinquishedVotesExist
  | ArithmeticOverflow
deriving DecidableEq, Repr

/-- An `AccountInfo` reduced to the metadata the handlers inspect. -/
structure AccountMeta where
  key : Pubkey
  is_signer : Bool
  owner : Pubkey
deriving DecidableEq, Repr

/-- Association-list lookup (account key to record). -/
def alistFind {α : Type} (l : List (Nat × α)) (k : Nat) : Option α :=
  match l with
  | [] => none
  | (k', v) :: rest => if k' = k then some v else alistFind rest k

/-- Association-list insert-or-replace, mirroring `HashMap::insert`:
an existing binding is overwritten in place, a new one is appended. -/
def alistInsert {α : Type} (l : List (Nat × α)) (k : Nat) (v : α) :
    List (Nat × α) :=
  match l with
  | [] => [(k, v)]
  | (k', v') :: rest =>
    if k' = k then (k, v) :: rest else (k', v') :: alistInsert rest k v

/-- The `vote_results` initialisation loop of `process_create_proposal`:
`for i in 0..options.len() { vote_results.insert(i as u8, 0); }`.
The `i as u8` cast truncates the index modulo 256. -/
def initVoteResults : Nat → List (Nat × Nat)
  | 0 => []
  | n + 1 => alistInsert (initVoteResults n) (n % 256) 0

/-- Global account state: each store maps an account key to its decoded
record. -/
structure GovState where
  realms : List (Nat × Realm)
  proposals : List (Nat × Proposal)
  tors : List (Nat × TokenOwnerRecord)
  voteRecords : List (Nat × VoteRecord)
deriving DecidableEq, Repr

/-- `process_initialize_realm` from the source.  After the signer check
(and the out-of-scope account-creation plumbing) it unconditionally builds
the realm record and serializes it into the realm account — there is no
already-initialized check. -/
def process_initialize_realm (st : GovState)
    (funder_info realm_info community_mint_info : AccountMeta)
    (council_mint_info : Option AccountMeta)
    (name : String) (min_community_tokens_to_create_proposal : Nat)
    (community_mint_max_vote_weight_source : MintMaxVoteWeightSource)
    (use_quadratic_voting : Bool) : Except GovError GovState :=
  if funder_info.is_signer = false then
    .error .MissingRequiredSignature
  else
    let realm : Realm :=
      { account_type := .Realm
        name := name
        community_mint := community_mint_info.key
        council_mint := council_mint_info.map (·.key)
        min_community_tokens_to_create_proposal :=
          min_community_tokens_to_create_proposal
        community_mint_max_vote_weight_source :=
          community_mint_max_vote_weight_source
        use_quadratic_voting := use_quadratic_voting }
    .ok { st with realms := alistInsert st.realms realm_info.key realm }

/-- The `Proposal` literal built by `process_create_proposal` from the
source.  `clock_unix_timestamp` is the single `Clock::get()` reading
(`i64`); `created_at` and `voting_starts_at` are that reading cast
`as u64`, `voting_ends_at` is the unchecked `i64` addition
`clock.unix_timestamp + (voting_period_days as i64 * 86400)` cast
`as u64`, and `vote_results` comes from the `i as u8` insertion loop.
`voting_period_days` is a `u8` in the source; the `% 256` maps the `Nat`
parameter onto that domain. -/
def created_proposal (proposal_owner_info governance_info : AccountMeta)
    (name description_link : String) (vote_type : VoteType)
    (options : List String) (use_denial_quorum : Bool)
    (voting_period_days : Nat) (clock_unix_timestamp : Int) : Proposal :=
  { account_type := .Proposal
    governance := governance_info.key
    proposal_owner := proposal_owner_info.key
    name := name
    description_link := description_link
    created_at := u64OfI64 clock_unix_timestamp
    state := .Draft
    vote_type := vote_type
    options := options
    use_denial_quorum := use_denial_quorum
    voting_starts_at := u64OfI64 clock_unix_timestamp
    voting_ends_at :=
      u64OfI64 (i64wrap (clock_unix_timestamp +
        (voting_period_days % 256 : Nat) * 86400))
    vote_results := initVoteResults options.length
    total_vote_weight := 0 }

/-- The handler body of `process_create_proposal`: signer check, token
owner record deserialization (its fields are never inspected), then the
serialization of `created_proposal` into the proposal account. -/
def process_create_proposal (st : GovState)
    (proposal_owner_info proposal_info governance_info
      token_owner_record_info _governance_authority_info : AccountMeta)
    (name description_link : String) (vote_type : VoteType)
    (options : List String) (use_denial_quorum : Bool)
    (voting_period_days : Nat) (clock_unix_timestamp : Int) :
    Except GovError GovState :=
  if proposal_owner_info.is_signer = false then
    .error .MissingRequiredSignature
  else
    match alistFind st.tors token_owner_record_info.key with
    | none => .error .InvalidAccountData
    | some _token_owner_record =>
      .ok { st with
        proposals := alistInsert st.proposals proposal_info.key
          (created_proposal proposal_owner_info governance_info name
            description_link vote_type options use_denial_quorum
            voting_period_days clock_unix_timestamp) }

/-- Modelled from the spec: the vote-weight computation of section 4.2
step 5 (`process_cast_vote` is dispatched by `process_instruction` but its
body is not present in the source).  If the realm uses quadratic voting
the weight is `floor(sqrt(staked_amount))`, otherwise the staked amount
itself; `Nat.sqrt` is the floor square root. -/
def compute_vote_weight (use_quadratic_voting : Bool) (staked_amount : Nat) :
    Nat :=
  if use_quadratic_voting then Nat.sqrt staked_amount else staked_amount

/-- Modelled from the spec: checked `u64` addition (section 7 requires all
weight/tally accumulations to be checked, failing with
`ArithmeticOverflow` instead of wrapping). -/
def checked_add_u64 (a b : Nat) : Except GovError Nat :=
  if a + b < 2 ^ 64 then .ok (a + b) else .error .ArithmeticOverflow

/-- Modelled from the spec: ballot-shape validation of section 4.2 step 4
against the proposal's `vote_type`. -/
def validate_ballot (vote_type : VoteType) (num_options : Nat) (v : Vote) :
    Bool :=
  match vote_type, v with
  | .SingleChoice, .SingleChoice option_index => option_index < num_options
  | .MultiChoice max_voter_options, .MultiChoice option_indices =>
    option_indices.length ≤ max_voter_options &&
      option_indices.all (· < num_options) && option_indices.Nodup
  | .Weighted, .Weighted weights =>
    weights.all (fun p => p.1 < num_options) &&
      0 < (weights.map Prod.snd).sum && (weights.map Prod.fst).Nodup
  | _, _ => false

/-- Modelled from the spec: distribution of the computed `vote_weight`
across a weighted ballot (section 4.2 step 5): declared weights are
normalized to sum to `vote_weight` by integer floor division, with the
remainder assigned to the first listed option. -/
def distribute_weight (vote_weight : Nat) (weights : List (Nat × Nat)) :
    List (Nat × Nat) :=
  let declared_sum := (weights.map Prod.snd).sum
  let base := weights.map (fun p => (p.1, vote_weight * p.2 / declared_sum))
  match base with
  | [] => []
  | (i0, a0) :: rest =>
    (i0, a0 + (vote_weight - (base.map Prod.snd).sum)) :: rest

/-- Modelled from the spec: the per-option weight allocations of a valid
ballot (section 4.2 step 6): a single choice receives the whole weight, a
multi-choice ballot credits each selected option, a weighted ballot is
distributed by `distribute_weight`. -/
def ballot_allocations (vote_weight : Nat) (v : Vote) : List (Nat × Nat) :=
  match v with
  | .SingleChoice option_index => [(option_index, vote_weight)]
  | .MultiChoice option_indices =>
    option_indices.map (fun i => (i, vote_weight))
  | .Weighted weights => distribute_weight vote_weight weights

/-- Modelled from the spec: folding a list of per-option allocations into
the tally map with checked additions (section 4.2 step 6, section 7). -/
def apply_allocations (results : List (Nat × Nat)) :
    List (Nat × Nat) → Except GovError (List (Nat × Nat))
  | [] => .ok results
  | (i, a) :: rest =>
    match checked_add_u64 ((alistFind results i).getD 0) a with
    | .error e => .error e
    | .ok updated => apply_allocations (alistInsert results i updated) rest

/-- Modelled from the spec: `process_cast_vote` (dispatched by
`process_instruction` but not present in the source), following section
4.2 steps 1-7.  The realm is looked up through the proposal's `governance`
reference; `now` is the operation's single clock reading as a `u64`
timestamp.  A failure returns the untouched state implicitly (the `Except`
error carries no partial mutation, matching the atomicity contract). -/
def process_cast_vote (st : GovState)
    (governance_authority_info proposal_info token_owner_record_info
      vote_record_info : AccountMeta)
    (vote : Vote) (staked_amount : Nat) (now : Nat) :
    Except GovError GovState :=
  if governance_authority_info.is_signer = false then
    .error .MissingRequiredSignature
  else
    match alistFind st.proposals proposal_info.key with
    | none => .error .InvalidAccountData
    | some proposal =>
      match alistFind st.realms proposal.governance with
      | none => .error .InvalidAccountData
      | some realm =>
        if proposal.state ≠ .Active then .error .VotingClosed
        else if now < proposal.voting_starts_at then .error .VotingClosed
        else if proposal.voting_ends_at ≤ now then .error .VotingClosed
        else
          match alistFind st.tors token_owner_record_info.key with
          | none => .error .InvalidAccountData
          | some token_owner_record =>
            if st.voteRecords.any (fun kv =>
                kv.2.proposal == proposal_info.key &&
                kv.2.governing_token_owner ==
                  token_owner_record.governing_token_owner &&
                !kv.2.is_relinquished) then
              .error .AlreadyVoted
            else if token_owner_record.governing_token_deposit_amount <
                staked_amount then
              .error .InsufficientStake
            else if validate_ballot proposal.vote_type
                proposal.options.length vote = false then
              .error .InvalidBallot
            else
              match apply_allocations proposal.vote_results
                (ballot_allocations
                  (compute_vote_weight realm.use_quadratic_voting
                    staked_amount) vote) with
              | .error e => .error e
              | .ok new_results =>
                match checked_add_u64 proposal.total_vote_weight
                  (compute_vote_weight realm.use_quadratic_voting
                    staked_amount) with
                | .error e => .error e
                | .ok new_total =>
                  .ok { st with
                    proposals := alistInsert st.proposals proposal_info.key
                      { proposal with
                        vote_results := new_results
                        total_vote_weight := new_total }
                    tors := alistInsert st.tors token_owner_record_info.key
                      { token_owner_record with
                        unrelinquished_votes_count :=
                          token_owner_record.unrelinquished_votes_count + 1 }
                    voteRecords := alistInsert st.voteRecords
                      vote_record_info.key
                      { account_type := .VoteRecord
                        proposal := proposal_info.key
                        governing_token_owner :=
                          token_owner_record.governing_token_owner
                        vote := vote
                        stake_amount := staked_amount
                        vote_weight :=
                          compute_vote_weight realm.use_quadratic_voting
                            staked_amount
                        is_relinquished := false } }

/-- Modelled from the spec: the Execution Gate (section 4.5,
`process_execute_proposal` is dispatched by `process_instruction` but not
present in the source).  Valid only from `Approved`; transitions to
`Executed`.  The returned `Bool` records whether the opaque action was
dispatched in this call; every error path dispatches nothing. -/
def execute_proposal (p : Proposal) : Except GovError (Proposal × Bool) :=
  if p.state = .Executed then .error .AlreadyExecuted
  else if p.state ≠ .Approved then .error .InvalidStateTransition
  else .ok ({ p with state := .Executed }, true)

/-- Modelled from the spec: `process_execute_proposal` lifted to the
account state, with the signer check of the instruction's account list. -/
def process_execute_proposal (st : GovState)
    (governance_authority_info proposal_info : AccountMeta) :
    Except GovError GovState :=
  if governance_authority_info.is_signer = false then
    .error .MissingRequiredSignature
  else
    match alistFind st.proposals proposal_info.key with
    | none => .error .InvalidAccountData
    | some proposal =>
      match execute_proposal proposal with
      | .error e => .error e
      | .ok (updated, _dispatched) =>
        .ok { st with
          proposals := alistInsert st.proposals proposal_info.key updated }

/-- Modelled from the spec: `process_stake_tokens` (section 4.4,
dispatched by `process_instruction` but not present in the source).  The
external token transfer is out of scope; the record is created on first
stake and the deposit accumulation is checked. -/
def process_stake_tokens (st : GovState)
    (token_owner_info token_owner_record_info : AccountMeta)
    (realm_key governing_token_mint : Pubkey) (amount : Nat) :
    Except GovError GovState :=
  if token_owner_info.is_signer = false then
    .error .MissingRequiredSignature
  else
    match alistFind st.tors token_owner_record_info.key with
    | none =>
      let record : TokenOwnerRecord :=
        { account_type := .TokenOwnerRecord
          realm := realm_key
          governing_token_mint := governing_token_mint
          governing_token_owner := token_owner_info.key
          governing_token_deposit_amount := amount
          unrelinquished_votes_count := 0
          earliest_unstaking_time := 0 }
      .ok { st with
        tors := alistInsert st.tors token_owner_record_info.key record }
    | some record =>
      match checked_add_u64 record.governing_token_deposit_amount amount with
      | .error e => .error e
      | .ok new_amount =>
        .ok { st with
          tors := alistInsert st.tors token_owner_record_info.key
            { record with governing_token_deposit_amount := new_amount } }

/-- Modelled from the spec: the stake currently locked in active votes of
one owner — the summed `stake_amount` of the owner's non-relinquished vote
records whose proposal is still `Active` (section 4.4). -/
def locked_stake (st : GovState) (owner : Pubkey) : Nat :=
  ((st.voteRecords.map Prod.snd).filter (fun vr =>
    vr.governing_token_owner == owner && !vr.is_relinquished &&
      (match alistFind st.proposals vr.proposal with
       | some p => p.state == ProposalState.Active
       | none => false))).foldl (fun acc vr => acc + vr.stake_amount) 0

/-- Modelled from the spec: `process_unstake_tokens` (section 4.4,
dispatched by `process_instruction` but not present in the source).
`cooldown_period` is the spec's `COOLDOWN_PERIOD` system constant, left as
a parameter because its value is not fixed by the spec. -/
def process_unstake_tokens (st : GovState)
    (token_owner_info token_owner_record_info : AccountMeta)
    (amount : Nat) (now : Nat) (cooldown_period : Nat) :
    Except GovError GovState :=
  if token_owner_info.is_signer = false then
    .error .MissingRequiredSignature
  else
    match alistFind st.tors token_owner_record_info.key with
    | none => .error .InvalidAccountData
    | some record =>
      if record.unrelinquished_votes_count > 0 ∧
          record.governing_token_deposit_amount - amount <
            locked_stake st record.governing_token_owner then
        .error .UnrelinquishedVotesExist
      else if now < record.earliest_unstaking_time then
        .error .CooldownActive
      else if record.governing_token_deposit_amount < amount then
        .error .InsufficientStake
      else
        .ok { st with
          tors := alistInsert st.tors token_owner_record_info.key
            { record with
              governing_token_deposit_amount :=
                record.governing_token_deposit_amount - amount
              earliest_unstaking_time := now + cooldown_period } }

/-- The instruction set of `LeapfrogInstruction`, with each variant
carrying its parameters and the account metas its handler receives. -/
inductive GovOp where
  | InitializeRealm (funder realm_acc community_mint_acc : AccountMeta)
      (council_mint_acc : Option AccountMeta) (name : String)
      (min_community_tokens_to_create_proposal : Nat)
      (community_mint_max_vote_weight_source : MintMaxVoteWeightSource)
      (use_quadratic_voting : Bool)
  | CreateProposal (owner_acc proposal_acc governance_acc tor_acc
        authority_acc : AccountMeta)
      (name description_link : String) (vote_type : VoteType)
      (options : List String) (use_denial_quorum : Bool)
      (voting_period_days : Nat)
  | CastVote (authority_acc proposal_acc tor_acc vote_record_acc :
        AccountMeta) (vote : Vote) (staked_amount : Nat)
  | ExecuteProposal (authority_acc proposal_acc : AccountMeta)
  | StakeTokens (owner_acc tor_acc : AccountMeta)
      (realm_key governing_token_mint : Pubkey) (amount : Nat)
  | UnstakeTokens (owner_acc tor_acc : AccountMeta) (amount : Nat)
deriving DecidableEq, Repr

/-- Recognizer for the `InitializeRealm` instruction. -/
def isInitializeRealmOp : GovOp → Bool
  | .InitializeRealm .. => true
  | _ => false

/-- The `process_instruction` dispatcher over the embedded state:
`now` is the operation's single clock reading (`i64`), `cooldown_period`
the spec's `COOLDOWN_PERIOD` constant. -/
def applyOp (now : Int) (cooldown_period : Nat) (st : GovState) :
    GovOp → Except GovError GovState
  | .InitializeRealm f r c cn n m s u =>
    process_initialize_realm st f r c cn n m s u
  | .CreateProposal o p g t a n d vt opts udq days =>
    process_create_proposal st o p g t a n d vt opts udq days now
  | .CastVote a p t v vote staked =>
    process_cast_vote st a p t v vote staked (u64OfI64 now)
  | .ExecuteProposal a p => process_execute_proposal st a p
  | .StakeTokens o t rk mk amount => process_stake_tokens st o t rk mk amount
  | .UnstakeTokens o t amount =>
    process_unstake_tokens st o t amount (u64OfI64 now) cooldown_period

/-- The state after running an instruction under the host transaction
boundary: a failed instruction leaves every account untouched. -/
def govRun (r : Except GovError GovState) (st : GovState) : GovState :=
  match r with
  | .ok st' => st'
  | .error _ => st

/-- `applyOp` under the host transaction boundary. -/
def applyOpD (now : Int) (cooldown_period : Nat) (st : GovState)
    (op : GovOp) : GovState :=
  govRun (applyOp now cooldown_period st op) st

/-! Concrete accounts and states used to evaluate the handlers. -/

/-- The empty account state. -/
def stEmpty : GovState :=
  { realms := [], proposals := [], tors := [], voteRecords := [] }

/-- Funding account, signing. -/
def funderMeta : AccountMeta := { key := 7, is_signer := true, owner := 0 }

/-- Funding account without the signer proof. -/
def funderNoSig : AccountMeta := { key := 7, is_signer := false, owner := 0 }

/-- Realm account (key 1). -/
def realmMeta : AccountMeta := { key := 1, is_signer := false, owner := 0 }

/-- Community mint account (key 2). -/
def communityMintMeta : AccountMeta :=
  { key := 2, is_signer := false, owner := 0 }

/-- Proposal owner account, signing. -/
def ownerMeta : AccountMeta := { key := 3, is_signer := true, owner := 0 }

/-- Proposal owner account without the signer proof. -/
def ownerNoSig : AccountMeta := { key := 3, is_signer := false, owner := 0 }

/-- Fresh proposal account (key 10). -/
def proposalMeta : AccountMeta := { key := 10, is_signer := false, owner := 0 }

/-- Governance account referencing the realm (key 1). -/
def governanceMeta : AccountMeta := { key := 1, is_signer := false, owner := 0 }

/-- Token owner record account (key 4). -/
def torMeta : AccountMeta := { key := 4, is_signer := false, owner := 0 }

/-- Governance authority account, signing. -/
def authorityMeta : AccountMeta := { key := 6, is_signer := true, owner := 0 }

/-- Vote record account (key 40). -/
def voteRecordMeta : AccountMeta :=
  { key := 40, is_signer := false, owner := 0 }

/-- Account meta of the active proposal stored at key 20. -/
def activeProposalMeta : AccountMeta :=
  { key := 20, is_signer := false, owner := 0 }

/-- Account meta of the draft proposal stored at key 21. -/
def draftProposalMeta : AccountMeta :=
  { key := 21, is_signer := false, owner := 0 }

/-- A realm with quadratic voting enabled and a 100-token proposal floor. -/
def realmSample : Realm :=
  { account_type := .Realm
    name := "realm"
    community_mint := 2
    council_mint := none
    min_community_tokens_to_create_proposal := 100
    community_mint_max_vote_weight_source := .Absolute 1000
    use_quadratic_voting := true }

/-- A token owner record with a 10000-token deposit. -/
def torSample : TokenOwnerRecord :=
  { account_type := .TokenOwnerRecord
    realm := 1
    governing_token_mint := 2
    governing_token_owner := 3
    governing_token_deposit_amount := 10000
    unrelinquished_votes_count := 0
    earliest_unstaking_time := 0 }

/-- A token owner record whose deposit (0) is below the realm's
100-token proposal floor. -/
def torPoor : TokenOwnerRecord :=
  { torSample with governing_token_deposit_amount := 0 }

/-- An `Active` two-option proposal with voting window `[0, 100)`. -/
def activeProposal : Proposal :=
  { account_type := .Proposal
    governance := 1
    proposal_owner := 3
    name := "p"
    description_link := "d"
    created_at := 0
    state := .Active
    vote_type := .SingleChoice
    options := ["Yes", "No"]
    use_denial_quorum := false
    voting_starts_at := 0
    voting_ends_at := 100
    vote_results := [(0, 0), (1, 0)]
    total_vote_weight := 0 }

/-- A `Draft` proposal. -/
def draftProposal : Proposal := { activeProposal with state := .Draft }

/-- An `Approved` proposal awaiting execution. -/
def approvedProposal : Proposal := { activeProposal with state := .Approved }

/-- A populated account state: one realm (key 1), an active, a draft and an
approved proposal (keys 20, 21, 22), one token owner record (key 4). -/
def stSample : GovState :=
  { realms := [(1, realmSample)]
    proposals := [(20, activeProposal), (21, draftProposal),
      (22, approvedProposal)]
    tors := [(4, torSample)]
    voteRecords := [] }

/-- `stSample` with the creator's deposit (0) below the realm floor. -/
def stPoor : GovState := { stSample with tors := [(4, torPoor)] }

/-- `stSample` with quadratic voting disabled on the realm. -/
def stLinear : GovState :=
  { stSample with
    realms := [(1, { realmSample with use_quadratic_voting := false })] }

/-- Re-initialization demo, first call: a realm with quadratic voting. -/
def stAfterInit1 : GovState :=
  govRun (process_initialize_realm stEmpty funderMeta realmMeta
    communityMintMeta none "realm" 100 (.Absolute 1000) true) stEmpty

/-- Re-initialization demo, second call on the same realm account with
quadratic voting turned off. -/
def stAfterInit2 : GovState :=
  govRun (process_initialize_realm stAfterInit1 funderMeta realmMeta
    communityMintMeta none "realm" 100 (.Absolute 1000) false) stAfterInit1

/-- Cast-vote demo: voter stakes 10000 on option 0 of the active proposal
at time 10, under the linear-weight realm. -/
def castDemo : Except GovError GovState :=
  process_cast_vote stLinear authorityMeta activeProposalMeta torMeta
    voteRecordMeta (Vote.SingleChoice 0) 10000 10

/-- The state after the cast-vote demo. -/
def stAfterCast : GovState := govRun castDemo stLinear

/-- Create-proposal demo: two options, a two-day voting period, clock
reading 1000. -/
def createDemo : Except GovError GovState :=
  process_create_proposal stSample ownerMeta proposalMeta governanceMeta
    torMeta authorityMeta "p2" "d2" .SingleChoice ["A", "B"] false 2 1000

/-- The state after the create-proposal demo. -/
def stAfterCreate : GovState := govRun createDemo stSample

/-- Overflow demo: a create-proposal call whose clock reading is the
largest `i64` value, so the `voting_ends_at` addition overflows. -/
def createOverflowDemo : Except GovError GovState :=
  process_create_proposal stSample ownerMeta proposalMeta governanceMeta
    torMeta authorityMeta "n" "d" .SingleChoice ["A"] false 1 (2 ^ 63 - 1)

/-- The state after the overflow demo. -/
def stAfterOverflow : GovState := govRun createOverflowDemo stSample

/-- Truncation demo: a create-proposal call with 257 options, one more
than the `u8` key space of `vote_results`. -/
def createBigDemo : Except GovError GovState :=
  process_create_proposal stSample ownerMeta proposalMeta governanceMeta
    torMeta authorityMeta "big" "d" .SingleChoice
    (List.replicate 257 "x") false 1 0

/-- The state after the truncation demo. -/
def stAfterBig : GovState := govRun createBigDemo stSample

/-! Association-list lemmas. -/

/-- Lookup after insert at the same key. -/
theorem alistFind_insert_self {α : Type} (l : List (Nat × α)) (k : Nat)
    (v : α) : alistFind (alistInsert l k v) k = some v := by
  induction l with
  | nil => simp [alistInsert, alistFind]
  | cons hd tl ih =>
    obtain ⟨k', v'⟩ := hd
    by_cases h : k' = k
    · simp [alistInsert, alistFind, h]
    · simp [alistInsert, alistFind, h, ih]

/-- Lookup after insert at a different key. -/
theorem alistFind_insert_ne {α : Type} (l : List (Nat × α)) (k k' : Nat)
    (v : α) (h : k' ≠ k) :
    alistFind (alistInsert l k v) k' = alistFind l k' := by
  induction l with
  | nil => simp [alistInsert, alistFind, Ne.symm h]
  | cons hd tl ih =>
    obtain ⟨k0, v0⟩ := hd
    by_cases h0 : k0 = k
    · subst h0
      simp [alistInsert, alistFind, Ne.symm h]
    · simp only [alistInsert, alistFind, if_neg h0]
      by_cases h1 : k0 = k'
      · simp [alistFind, h1]
      · simp [alistFind, h1, ih]

/-- Inserting an absent key appends it. -/
theorem alistInsert_of_find_none {α : Type} (l : List (Nat × α)) (k : Nat)
    (v : α) (h : alistFind l k = none) :
    alistInsert l k v = l ++ [(k, v)] := by
  induction l with
  | nil => simp [alistInsert]
  | cons hd tl ih =>
    obtain ⟨k0, v0⟩ := hd
    simp only [alistFind] at h
    by_cases h0 : k0 = k
    · simp [h0] at h
    · simp only [if_neg h0] at h
      simp [alistInsert, h0, ih h]

/-- Re-inserting the value a key already holds is the identity. -/
theorem alistInsert_of_find_some {α : Type} (l : List (Nat × α)) (k : Nat)
    (v : α) (h : alistFind l k = some v) : alistInsert l k v = l := by
  induction l with
  | nil => simp [alistFind] at h
  | cons hd tl ih =>
    obtain ⟨k0, v0⟩ := hd
    simp only [alistFind] at h
    by_cases h0 : k0 = k
    · simp only [if_pos h0, Option.some.injEq] at h
      simp [alistInsert, h0, h]
    · simp only [if_neg h0] at h
      simp [alistInsert, h0, ih h]

/-- Lookup over a concatenation, first-list hit. -/
theorem alistFind_append_of_some {α : Type} (l₁ l₂ : List (Nat × α))
    (k : Nat) (v : α) (h : alistFind l₁ k = some v) :
    alistFind (l₁ ++ l₂) k = some v := by
  induction l₁ with
  | nil => simp [alistFind] at h
  | cons hd tl ih =>
    obtain ⟨k0, v0⟩ := hd
    simp only [alistFind] at h ⊢
    by_cases h0 : k0 = k
    · simpa [h0] using h
    · simp only [if_neg h0] at h ⊢
      exact ih h

/-- Lookup over a concatenation, first-list miss. -/
theorem alistFind_append_of_none {α : Type} (l₁ l₂ : List (Nat × α))
    (k : Nat) (h : alistFind l₁ k = none) :
    alistFind (l₁ ++ l₂) k = alistFind l₂ k := by
  induction l₁ with
  | nil => simp
  | cons hd tl ih =>
    obtain ⟨k0, v0⟩ := hd
    simp only [alistFind] at h ⊢
    by_cases h0 : k0 = k
    · simp [h0] at h
    · simp only [if_neg h0] at h ⊢
      exact ih h

/-- Lookup in the canonical zero tally of `m` dense keys. -/
theorem alistFind_range_zero (m k : Nat) :
    alistFind ((List.range m).map (fun j => (j, (0 : Nat)))) k =
      if k < m then some 0 else none := by
  induction m with
  | zero => simp [alistFind]
  | succ m ih =>
    rw [List.range_succ, List.map_append]
    by_cases h : k < m
    · rw [alistFind_append_of_some _ _ _ 0 (by rw [ih]; simp [h])]
      simp [Nat.lt_succ_of_lt h]
    · rw [alistFind_append_of_none _ _ _ (by rw [ih]; simp [h])]
      by_cases h1 : k = m
      · simp [alistFind, h1]
      · have h2 : ¬ k < m + 1 := by omega
        have h3 : ¬ m = k := by omega
        simp [alistFind, h2, h3]

/-- The `vote_results` initialisation loop produces the zero tally on the
`u8`-truncated key range: exactly the keys `0 .. min n 256`. -/
theorem initVoteResults_eq (n : Nat) :
    initVoteResults n =
      (List.range (min n 256)).map (fun k => (k, (0 : Nat))) := by
  induction n with
  | zero => simp [initVoteResults]
  | succ n ih =>
    rw [initVoteResults, ih]
    by_cases h : n < 256
    · have hmod : n % 256 = n := Nat.mod_eq_of_lt h
      have hmin : min n 256 = n := by omega
      have hmin' : min (n + 1) 256 = n + 1 := by omega
      rw [hmod, hmin, hmin',
        alistInsert_of_find_none _ _ _
          (by rw [alistFind_range_zero]; simp),
        List.range_succ, List.map_append]
      simp
    · have hmin : min n 256 = 256 := by omega
      have hmin' : min (n + 1) 256 = 256 := by omega
      have hlt : n % 256 < 256 := Nat.mod_lt n (by omega)
      rw [hmin, hmin',
        alistInsert_of_find_some _ _ _
          (by rw [alistFind_range_zero]; simp [hlt])]

/-! Integer-cast lemmas. -/

/-- `i64` wrap is the identity on the `i64` range. -/
theorem i64wrap_eq_self (x : Int) (h0 : -2 ^ 63 ≤ x) (h1 : x < 2 ^ 63) :
    i64wrap x = x := by
  unfold i64wrap
  omega

/-- Casting a wrapped `i64` to `u64` equals casting the unwrapped value:
the composition is reduction modulo `2 ^ 64`. -/
theorem u64OfI64_i64wrap (x : Int) : u64OfI64 (i64wrap x) = u64OfI64 x := by
  unfold u64OfI64 i64wrap
  omega

/-- The `as u64` cast is `toNat` on in-range non-negative values. -/
theorem u64OfI64_eq_toNat (x : Int) (h0 : 0 ≤ x) (h1 : x < 2 ^ 64) :
    u64OfI64 x = x.toNat := by
  unfold u64OfI64
  omega

/-- For a valid `i64` clock reading the `u64` cast is exact. -/
theorem c5_arith0 (ts : Int) (hts0 : 0 ≤ ts) (hts1 : ts < 2 ^ 63) :
    (ts % 2 ^ 64).toNat = ts.toNat := by
  rw [Int.emod_eq_of_lt hts0 (lt_trans hts1 (by norm_num))]

/-- Arithmetic core of the voting-window computation: for a valid clock
reading and `u8` period the modulo-`2 ^ 64` sum is exact. -/
theorem c5_arith (days : Nat) (ts : Int) (hdays : days < 256)
    (hts0 : 0 ≤ ts) (hts1 : ts < 2 ^ 63) :
    ((ts + (days : Int) * 86400) % 2 ^ 64).toNat =
      ts.toNat + days * 86400 := by
  have hd256 : (days : Int) < 256 := by exact_mod_cast hdays
  have hd0 : (0 : Int) ≤ (days : Int) * 86400 :=
    mul_nonneg (Int.natCast_nonneg days) (by norm_num)
  have hd : (days : Int) * 86400 < 256 * 86400 :=
    mul_lt_mul_of_pos_right hd256 (by norm_num)
  have hge : 0 ≤ ts + (days : Int) * 86400 := add_nonneg hts0 hd0
  have hlt : ts + (days : Int) * 86400 < 2 ^ 64 :=
    lt_of_lt_of_le (add_lt_add hts1 hd) (by norm_num)
  rw [Int.emod_eq_of_lt hge hlt, Int.toNat_add hts0 hd0]
  congr 1

/-! Handler characterizations. -/

theorem process_create_proposal_eq_ok (st : GovState)
    (o p g t a : AccountMeta) (n d : String) (vt : VoteType)
    (opts : List String) (udq : Bool) (days : Nat) (ts : Int)
    (tor : TokenOwnerRecord) (hs : o.is_signer = true)
    (ht : alistFind st.tors t.key = some tor) :
    process_create_proposal st o p g t a n d vt opts udq days ts =
      .ok { st with
        proposals := alistInsert st.proposals p.key
          (created_proposal o g n d vt opts udq days ts) } := by
  simp [process_create_proposal, hs, ht]

theorem create_ok_elim (st : GovState) (o p g t a : AccountMeta)
    (n d : String) (vt : VoteType) (opts : List String) (udq : Bool)
    (days : Nat) (ts : Int) (st' : GovState)
    (h : process_create_proposal st o p g t a n d vt opts udq days ts =
      .ok st') :
    o.is_signer = true ∧ (alistFind st.tors t.key).isSome = true ∧
      st' = { st with
        proposals := alistInsert st.proposals p.key
          (created_proposal o g n d vt opts udq days ts) } := by
  unfold process_create_proposal at h
  split at h
  · simp at h
  · rename_i hs
    split at h
    · simp at h
    · rename_i tor htor
      simp only [Except.ok.injEq] at h
      exact ⟨by simpa using hs, by simp [htor], h.symm⟩

theorem create_result (st : GovState) (o p g t a : AccountMeta)
    (n d : String) (vt : VoteType) (opts : List String) (udq : Bool)
    (days : Nat) (ts : Int) (hs : o.is_signer = true)
    (ht : (alistFind st.tors t.key).isSome = true) :
    alistFind (govRun
      (process_create_proposal st o p g t a n d vt opts udq days ts)
      st).proposals p.key =
      some (created_proposal o g n d vt opts udq days ts) := by
  obtain ⟨tor, htor⟩ := Option.isSome_iff_exists.mp ht
  rw [process_create_proposal_eq_ok st o p g t a n d vt opts udq days ts
    tor hs htor]
  simp [govRun, alistFind_insert_self]

theorem cast_ok_elim (st : GovState) (a pI tI vI : AccountMeta)
    (vote : Vote) (staked now : Nat) (st' : GovState)
    (h : process_cast_vote st a pI tI vI vote staked now = .ok st') :
    ∃ proposal realm tor new_results new_total,
      alistFind st.proposals pI.key = some proposal ∧
      alistFind st.realms proposal.governance = some realm ∧
      proposal.state = .Active ∧
      alistFind st.tors tI.key = some tor ∧
      st' = { st with
        proposals := alistInsert st.proposals pI.key
          { proposal with
            vote_results := new_results
            total_vote_weight := new_total }
        tors := alistInsert st.tors tI.key
          { tor with unrelinquished_votes_count :=
              tor.unrelinquished_votes_count + 1 }
        voteRecords := alistInsert st.voteRecords vI.key
          { account_type := .VoteRecord
            proposal := pI.key
            governing_token_owner := tor.governing_token_owner
            vote := vote
            stake_amount := staked
            vote_weight :=
              compute_vote_weight realm.use_quadratic_voting staked
            is_relinquished := false } } := by
  unfold process_cast_vote at h
  split at h
  · simp at h
  split at h
  · simp at h
  rename_i proposal hp
  split at h
  · simp at h
  rename_i realm hr
  split at h
  · simp at h
  rename_i hstate
  split at h
  · simp at h
  split at h
  · simp at h
  split at h
  · simp at h
  rename_i tor htor
  split at h
  · simp at h
  split at h
  · simp at h
  split at h
  · simp at h
  split at h
  · simp at h
  rename_i new_results hA
  split at h
  · simp at h
  rename_i new_total hT
  simp only [Except.ok.injEq] at h
  exact ⟨proposal, realm, tor, new_results, new_total, hp, hr,
    not_not.mp hstate, htor, h.symm⟩

theorem execute_ok_elim (p : Proposal) (q : Proposal) (d : Bool)
    (h : execute_proposal p = .ok (q, d)) :
    p.state = .Approved ∧ q = { p with state := .Executed } ∧ d = true := by
  unfold execute_proposal at h
  split at h
  · simp at h
  split at h
  · simp at h
  rename_i h1 h2
  simp only [Except.ok.injEq, Prod.mk.injEq] at h
  exact ⟨not_not.mp h2, h.1.symm, h.2.symm⟩

theorem execute_step_ok_elim (st : GovState) (a pI : AccountMeta)
    (st' : GovState) (h : process_execute_proposal st a pI = .ok st') :
    ∃ proposal, alistFind st.proposals pI.key = some proposal ∧
      proposal.state = .Approved ∧
      st' = { st with
        proposals := alistInsert st.proposals pI.key
          { proposal with state := .Executed } } := by
  unfold process_execute_proposal at h
  split at h
  · simp at h
  split at h
  · simp at h
  rename_i proposal hp
  split at h
  · simp at h
  rename_i q d hq
  obtain ⟨hApproved, hupd, hd⟩ := execute_ok_elim proposal q d hq
  simp only [Except.ok.injEq] at h
  exact ⟨proposal, hp, hApproved, by rw [← h, hupd]⟩

theorem stake_ok_elim (st : GovState) (o t : AccountMeta)
    (rk mk amount : Nat) (st' : GovState)
    (h : process_stake_tokens st o t rk mk amount = .ok st') :
    st'.realms = st.realms ∧ st'.proposals = st.proposals := by
  unfold process_stake_tokens at h
  split at h
  · simp at h
  split at h
  · simp only [Except.ok.injEq] at h
    rw [← h]
    exact ⟨rfl, rfl⟩
  split at h
  · simp at h
  · simp only [Except.ok.injEq] at h
    rw [← h]
    exact ⟨rfl, rfl⟩

theorem unstake_ok_elim (st : GovState) (o t : AccountMeta)
    (amount now cooldown : Nat) (st' : GovState)
    (h : process_unstake_tokens st o t amount now cooldown = .ok st') :
    st'.realms = st.realms ∧ st'.proposals = st.proposals := by
  unfold process_unstake_tokens at h
  split at h
  · simp at h
  split at h
  · simp at h
  split at h
  · simp at h
  split at h
  · simp at h
  split at h
  · simp at h
  simp only [Except.ok.injEq] at h
  rw [← h]
  exact ⟨rfl, rfl⟩

/-- A run preserves the realm store as soon as every successful outcome
does. -/
theorem govRun_realms (r : Except GovError GovState) (st : GovState)
    (h : ∀ st', r = .ok st' → st'.realms = st.realms) :
    (govRun r st).realms = st.realms := by
  cases r with
  | ok s => exact h s rfl
  | error e => rfl

/-- A run preserves a Draft proposal as soon as every successful outcome
does. -/
theorem govRun_draft (r : Except GovError GovState) (st : GovState)
    (k : Nat)
    (h : ∀ st', r = .ok st' →
      (alistFind st'.proposals k).map Proposal.state = some .Draft)
    (h0 : (alistFind st.proposals k).map Proposal.state = some .Draft) :
    (alistFind (govRun r st).proposals k).map Proposal.state =
      some .Draft := by
  cases r with
  | ok s => exact h s rfl
  | error e => exact h0

theorem init_ok_stores (st : GovState) (f r c : AccountMeta)
    (cn : Option AccountMeta) (n : String) (m : Nat)
    (s : MintMaxVoteWeightSource) (u : Bool) (st' : GovState)
    (h : process_initialize_realm st f r c cn n m s u = .ok st') :
    st'.proposals = st.proposals ∧ st'.tors = st.tors ∧
      st'.voteRecords = st.voteRecords := by
  unfold process_initialize_realm at h
  split at h
  · simp at h
  · simp only [Except.ok.injEq] at h
    rw [← h]
    exact ⟨rfl, rfl, rfl⟩

/-- Every instruction other than `InitializeRealm` leaves the realm store
unchanged. -/
theorem applyOpD_realms (now : Int) (cd : Nat) (st : GovState) (op : GovOp)
    (hop : isInitializeRealmOp op = false) :
    (applyOpD now cd st op).realms = st.realms := by
  cases op with
  | InitializeRealm f r c cn n m s u => simp [isInitializeRealmOp] at hop
  | CreateProposal o p g t a n d vt opts udq days =>
    unfold applyOpD applyOp
    apply govRun_realms
    intro st' h
    obtain ⟨-, -, hst⟩ := create_ok_elim _ _ _ _ _ _ _ _ _ _ _ _ _ _ h
    rw [hst]
  | CastVote a p t v vote staked =>
    unfold applyOpD applyOp
    apply govRun_realms
    intro st' h
    obtain ⟨prop1, realm1, tor1, nr1, nt1, -, -, -, -, hst⟩ :=
      cast_ok_elim _ _ _ _ _ _ _ _ _ h
    rw [hst]
  | ExecuteProposal a p =>
    unfold applyOpD applyOp
    apply govRun_realms
    intro st' h
    obtain ⟨prop1, -, -, hst⟩ := execute_step_ok_elim _ _ _ _ h
    rw [hst]
  | StakeTokens o t rk mk amount =>
    unfold applyOpD applyOp
    apply govRun_realms
    intro st' h
    exact (stake_ok_elim _ _ _ _ _ _ _ h).1
  | UnstakeTokens o t amount =>
    unfold applyOpD applyOp
    apply govRun_realms
    intro st' h
    exact (unstake_ok_elim _ _ _ _ _ _ _ h).1

/-- No instruction moves a `Draft` proposal to any other state: a proposal
that was `Draft` before an instruction is `Draft` after it. -/
theorem applyOpD_draft (now : Int) (cd : Nat) (st : GovState) (op : GovOp)
    (k : Nat)
    (h0 : (alistFind st.proposals k).map Proposal.state = some .Draft) :
    (alistFind (applyOpD now cd st op).proposals k).map Proposal.state =
      some .Draft := by
  cases op with
  | InitializeRealm f r c cn n m s u =>
    unfold applyOpD applyOp
    refine govRun_draft _ _ _ (fun st' h => ?_) h0
    rw [(init_ok_stores _ _ _ _ _ _ _ _ _ _ h).1]
    exact h0
  | CreateProposal o p g t a n d vt opts udq days =>
    unfold applyOpD applyOp
    refine govRun_draft _ _ _ (fun st' h => ?_) h0
    obtain ⟨-, -, hst⟩ := create_ok_elim _ _ _ _ _ _ _ _ _ _ _ _ _ _ h
    rw [hst]
    by_cases hk : p.key = k
    · rw [← hk]
      show (alistFind (alistInsert st.proposals p.key _) p.key).map
        Proposal.state = some .Draft
      rw [alistFind_insert_self]
      rfl
    · show (alistFind (alistInsert st.proposals p.key _) k).map
        Proposal.state = some .Draft
      rw [alistFind_insert_ne _ _ _ _ (Ne.symm hk)]
      exact h0
  | CastVote a p t v vote staked =>
    unfold applyOpD applyOp
    refine govRun_draft _ _ _ (fun st' h => ?_) h0
    obtain ⟨proposal, realm, tor, nr, nt, hp, hr, hActive, htor, hst⟩ :=
      cast_ok_elim _ _ _ _ _ _ _ _ _ h
    rw [hst]
    by_cases hk : p.key = k
    · exfalso
      rw [hk] at hp
      rw [hp] at h0
      simp only [Option.map_some'] at h0
      rw [hActive] at h0
      simp at h0
    · show (alistFind (alistInsert st.proposals p.key _) k).map
        Proposal.state = some .Draft
      rw [alistFind_insert_ne _ _ _ _ (Ne.symm hk)]
      exact h0
  | ExecuteProposal a p =>
    unfold applyOpD applyOp
    refine govRun_draft _ _ _ (fun st' h => ?_) h0
    obtain ⟨proposal, hp, hApproved, hst⟩ := execute_step_ok_elim _ _ _ _ h
    rw [hst]
    by_cases hk : p.key = k
    · exfalso
      rw [hk] at hp
      rw [hp] at h0
      simp only [Option.map_some'] at h0
      rw [hApproved] at h0
      simp at h0
    · show (alistFind (alistInsert st.proposals p.key _) k).map
        Proposal.state = some .Draft
      rw [alistFind_insert_ne _ _ _ _ (Ne.symm hk)]
      exact h0
  | StakeTokens o t rk mk amount =>
    unfold applyOpD applyOp
    refine govRun_draft _ _ _ (fun st' h => ?_) h0
    rw [(stake_ok_elim _ _ _ _ _ _ _ h).2]
    exact h0
  | UnstakeTokens o t amount =>
    unfold applyOpD applyOp
    refine govRun_draft _ _ _ (fun st' h => ?_) h0
    rw [(unstake_ok_elim _ _ _ _ _ _ _ h).2]
    exact h0

/-! Claim theorems. -/

/-- Claim C9: for every InitializeRealm or CreateProposal call whose
required signer proof is absent, the handler fails with the
missing-authorization kind (`ProgramError::MissingRequiredSignature` in
the source) and no account data is modified. -/
theorem c9_missing_signer_rejected :
    (∀ st f r c cn n m s u, f.is_signer = false →
      process_initialize_realm st f r c cn n m s u =
        .error .MissingRequiredSignature ∧
      govRun (process_initialize_realm st f r c cn n m s u) st = st) ∧
    (∀ st o p g t a n d vt opts udq days ts, o.is_signer = false →
      process_create_proposal st o p g t a n d vt opts udq days ts =
        .error .MissingRequiredSignature ∧
      govRun (process_create_proposal st o p g t a n d vt opts udq days ts)
        st = st) := by
  constructor
  · intro st f r c cn n m s u hf
    have he : process_initialize_realm st f r c cn n m s u =
        .error .MissingRequiredSignature := by
      simp [process_initialize_realm, hf]
    exact ⟨he, by rw [he]; rfl⟩
  · intro st o p g t a n d vt opts udq days ts ho
    have he : process_create_proposal st o p g t a n d vt opts udq days ts =
        .error .MissingRequiredSignature := by
      simp [process_create_proposal, ho]
    exact ⟨he, by rw [he]; rfl⟩

/-- Witness for C9: the concrete non-signing funder and proposal owner are
rejected with `MissingRequiredSignature` and the state is untouched. -/
theorem c9_missing_signer_witness :
    (process_initialize_realm stSample funderNoSig realmMeta
        communityMintMeta none "realm" 100 (.Absolute 1000) true =
      .error .MissingRequiredSignature ∧
    govRun (process_initialize_realm stSample funderNoSig realmMeta
      communityMintMeta none "realm" 100 (.Absolute 1000) true) stSample =
      stSample) ∧
    (process_create_proposal stSample ownerNoSig proposalMeta
        governanceMeta torMeta authorityMeta "p" "d" .SingleChoice
        ["A"] false 1 1000 =
      .error .MissingRequiredSignature ∧
    govRun (process_create_proposal stSample ownerNoSig proposalMeta
      governanceMeta torMeta authorityMeta "p" "d" .SingleChoice
      ["A"] false 1 1000) stSample = stSample) :=
  ⟨c9_missing_signer_rejected.1 stSample funderNoSig realmMeta
    communityMintMeta none "realm" 100 (.Absolute 1000) true rfl,
   c9_missing_signer_rejected.2 stSample ownerNoSig proposalMeta
    governanceMeta torMeta authorityMeta "p" "d" .SingleChoice
    ["A"] false 1 1000 rfl⟩

/-- Claim C7: `ExecuteProposal` succeeds exactly from `Approved`,
transitioning to `Executed` with the action dispatched once (the returned
flag), and a second execution on the now-`Executed` proposal fails with
`AlreadyExecuted` (every error dispatches nothing by construction). -/
theorem c7_execute_exactly_once :
    (∀ p q d, execute_proposal p = .ok (q, d) →
      p.state = .Approved ∧ q = { p with state := .Executed } ∧ d = true) ∧
    (∀ p, p.state = .Approved →
      execute_proposal p = .ok ({ p with state := .Executed }, true) ∧
      execute_proposal { p with state := .Executed } =
        .error .AlreadyExecuted) := by
  constructor
  · exact execute_ok_elim
  · intro p hp
    constructor
    · simp [execute_proposal, hp]
    · simp [execute_proposal]

/-- Witness for C7: executing the concrete approved proposal succeeds and
dispatches; re-executing it fails with `AlreadyExecuted`. -/
theorem c7_execute_witness :
    execute_proposal approvedProposal =
      .ok ({ approvedProposal with state := .Executed }, true) ∧
    execute_proposal { approvedProposal with state := .Executed } =
      .error .AlreadyExecuted :=
  c7_execute_exactly_once.2 approvedProposal rfl

/-- Claim C6 counterexample: realm configuration is not immutable once
created — a second `InitializeRealm` on the already-initialized realm
account succeeds (there is no initialization check) and overwrites
`use_quadratic_voting` from `true` to `false`. -/
theorem c6_counterexample_realm_reinitialized :
    (process_initialize_realm stEmpty funderMeta realmMeta
      communityMintMeta none "realm" 100 (.Absolute 1000) true).isOk =
        true ∧
    (alistFind stAfterInit1.realms 1).map Realm.use_quadratic_voting =
      some true ∧
    (process_initialize_realm stAfterInit1 funderMeta realmMeta
      communityMintMeta none "realm" 100 (.Absolute 1000) false).isOk =
        true ∧
    (alistFind stAfterInit2.realms 1).map Realm.use_quadratic_voting =
      some false := by
  decide

/-- Claim C6 (amended): a realm's fields are never modified by any
instruction other than `InitializeRealm` itself; re-invoking
`InitializeRealm` on an existing realm account, however, overwrites it. -/
theorem c6_realm_untouched_by_other_ops (now : Int) (cd : Nat)
    (st : GovState) (op : GovOp) (hop : isInitializeRealmOp op = false) :
    (applyOpD now cd st op).realms = st.realms :=
  applyOpD_realms now cd st op hop

/-- Witness for C6 (amended): a concrete `CreateProposal` instruction
leaves the realm store of the populated sample state unchanged. -/
theorem c6_realm_untouched_witness :
    (applyOpD 1000 0 stSample (GovOp.CreateProposal ownerMeta proposalMeta
      governanceMeta torMeta authorityMeta "p2" "d2" .SingleChoice
      ["A", "B"] false 2)).realms = stSample.realms :=
  c6_realm_untouched_by_other_ops 1000 0 stSample
    (GovOp.CreateProposal ownerMeta proposalMeta governanceMeta torMeta
      authorityMeta "p2" "d2" .SingleChoice ["A", "B"] false 2) rfl

/-- Claim C10: a successful CreateProposal yields a proposal in state
`Draft` (not `Active`) with `total_vote_weight = 0` although its voting
window has already opened (`voting_starts_at = created_at`), and no
instruction of the program ever moves a proposal out of `Draft`. -/
theorem c10_proposals_stuck_in_draft :
    (∀ st o p g t a n d vt opts udq days ts, o.is_signer = true →
      (alistFind st.tors t.key).isSome = true →
      (alistFind (govRun (process_create_proposal st o p g t a n d vt opts
        udq days ts) st).proposals p.key).map
        (fun pr => (pr.state, pr.total_vote_weight,
          pr.voting_starts_at == pr.created_at)) =
        some (.Draft, 0, true)) ∧
    (∀ now cd st op k,
      (alistFind st.proposals k).map Proposal.state = some .Draft →
      (alistFind (applyOpD now cd st op).proposals k).map Proposal.state =
        some .Draft) := by
  constructor
  · intro st o p g t a n d vt opts udq days ts hs ht
    rw [create_result st o p g t a n d vt opts udq days ts hs ht]
    simp [created_proposal]
  · intro now cd st op k h0
    exact applyOpD_draft now cd st op k h0

/-- Witness for C10: the concrete create-proposal demo lands in `Draft`
with zero weight and an already-open window, and a cast-vote instruction
aimed at the stored draft proposal leaves it in `Draft`. -/
theorem c10_stuck_in_draft_witness :
    (alistFind (govRun (process_create_proposal stSample ownerMeta
      proposalMeta governanceMeta torMeta authorityMeta "p2" "d2"
      .SingleChoice ["A", "B"] false 2 1000) stSample).proposals 10).map
      (fun pr => (pr.state, pr.total_vote_weight,
        pr.voting_starts_at == pr.created_at)) =
      some (.Draft, 0, true) ∧
    (alistFind (applyOpD 10 0 stSample (GovOp.CastVote authorityMeta
      draftProposalMeta torMeta voteRecordMeta (Vote.SingleChoice 0)
      5)).proposals 21).map Proposal.state = some .Draft :=
  ⟨c10_proposals_stuck_in_draft.1 stSample ownerMeta proposalMeta
    governanceMeta torMeta authorityMeta "p2" "d2" .SingleChoice
    ["A", "B"] false 2 1000 rfl (by decide),
   c10_proposals_stuck_in_draft.2 10 0 stSample
    (GovOp.CastVote authorityMeta draftProposalMeta torMeta voteRecordMeta
      (Vote.SingleChoice 0) 5) 21 (by decide)⟩

/-- Claim C2 counterexample: a CreateProposal call with
`voting_period_days = 0` and an empty options list does not fail with
`InvalidProposalConfig` — it succeeds and a proposal is created. -/
theorem c2_counterexample_no_config_validation :
    (process_create_proposal stSample ownerMeta proposalMeta governanceMeta
      torMeta authorityMeta "p" "d" .SingleChoice [] false 0 1000).isOk =
      true ∧
    (alistFind (govRun (process_create_proposal stSample ownerMeta
      proposalMeta governanceMeta torMeta authorityMeta "p" "d"
      .SingleChoice [] false 0 1000) stSample).proposals 10).isSome =
      true := by
  refine ⟨by decide, by decide⟩

/-- Claim C2 (amended): `process_create_proposal` performs no validation
of `voting_period_days` or `options` at all — whenever the signer is
present and the token owner record deserializes, it succeeds and stores a
proposal, in particular for a zero-day period or an empty options list. -/
theorem c2_create_proposal_no_validation (st : GovState)
    (o p g t a : AccountMeta) (n d : String) (vt : VoteType)
    (opts : List String) (udq : Bool) (days : Nat) (ts : Int)
    (hs : o.is_signer = true)
    (ht : (alistFind st.tors t.key).isSome = true) :
    (process_create_proposal st o p g t a n d vt opts udq days ts).isOk =
      true ∧
    (alistFind (govRun (process_create_proposal st o p g t a n d vt opts
      udq days ts) st).proposals p.key).isSome = true := by
  obtain ⟨tor, htor⟩ := Option.isSome_iff_exists.mp ht
  rw [process_create_proposal_eq_ok st o p g t a n d vt opts udq days ts
    tor hs htor]
  refine ⟨rfl, ?_⟩
  simp [govRun, alistFind_insert_self]

/-- Witness for C2 (amended): the zero-period, empty-options call on the
sample state succeeds and stores a proposal at the proposal account. -/
theorem c2_no_validation_witness :
    (process_create_proposal stSample ownerMeta proposalMeta governanceMeta
      torMeta authorityMeta "p" "d" .SingleChoice [] false 0 1000).isOk =
      true ∧
    (alistFind (govRun (process_create_proposal stSample ownerMeta
      proposalMeta governanceMeta torMeta authorityMeta "p" "d"
      .SingleChoice [] false 0 1000) stSample).proposals 10).isSome =
      true :=
  c2_create_proposal_no_validation stSample ownerMeta proposalMeta
    governanceMeta torMeta authorityMeta "p" "d" .SingleChoice [] false 0
    1000 rfl (by decide)

/-- Claim C3 (code bug): the handler comment says it must ensure the
proposal creator has enough tokens, but no check exists — with the realm
floor at 100 and the creator's deposit at 0, CreateProposal succeeds. -/
theorem c3_insufficient_stake_not_enforced :
    (alistFind stPoor.realms 1).map
      Realm.min_community_tokens_to_create_proposal = some 100 ∧
    (alistFind stPoor.tors 4).map
      TokenOwnerRecord.governing_token_deposit_amount = some 0 ∧
    (process_create_proposal stPoor ownerMeta proposalMeta governanceMeta
      torMeta authorityMeta "p" "d" .SingleChoice ["A"] false 1
      1000).isOk = true := by
  refine ⟨by decide, by decide, by decide⟩

/-- Claim C5: a successful CreateProposal fixes the voting window at
creation from the single clock reading: `voting_starts_at = created_at`
and `voting_ends_at = created_at + voting_period_days * 86400`, for every
valid clock reading (`0 ≤ ts < 2 ^ 63`) and `u8` period. -/
theorem c5_voting_window_fixed_at_creation (st : GovState)
    (o p g t a : AccountMeta) (n d : String) (vt : VoteType)
    (opts : List String) (udq : Bool) (days : Nat) (ts : Int)
    (hs : o.is_signer = true)
    (ht : (alistFind st.tors t.key).isSome = true)
    (hdays : days < 256) (hts0 : 0 ≤ ts) (hts1 : ts < 2 ^ 63) :
    (alistFind (govRun (process_create_proposal st o p g t a n d vt opts
      udq days ts) st).proposals p.key).map
      (fun pr => (pr.created_at, pr.voting_starts_at, pr.voting_ends_at)) =
      some (ts.toNat, ts.toNat, ts.toNat + days * 86400) := by
  rw [create_result st o p g t a n d vt opts udq days ts hs ht]
  simp only [Option.map_some', created_proposal]
  rw [Nat.mod_eq_of_lt hdays, u64OfI64_i64wrap]
  unfold u64OfI64
  simp only [Option.some.injEq, Prod.mk.injEq]
  exact ⟨c5_arith0 ts hts0 hts1, c5_arith0 ts hts0 hts1,
    c5_arith days ts hdays hts0 hts1⟩

/-- Witness for C5: the concrete two-day create-proposal demo at clock
reading 1000 gets window `[1000, 1000 + 2 * 86400)`. -/
theorem c5_voting_window_witness :
    (alistFind (govRun (process_create_proposal stSample ownerMeta
      proposalMeta governanceMeta torMeta authorityMeta "p2" "d2"
      .SingleChoice ["A", "B"] false 2 1000) stSample).proposals 10).map
      (fun pr => (pr.created_at, pr.voting_starts_at, pr.voting_ends_at)) =
      some ((1000 : Int).toNat, (1000 : Int).toNat,
        (1000 : Int).toNat + 2 * 86400) :=
  c5_voting_window_fixed_at_creation stSample ownerMeta proposalMeta
    governanceMeta torMeta authorityMeta "p2" "d2" .SingleChoice
    ["A", "B"] false 2 1000 rfl (by decide) (by decide) (by decide)
    (by decide)

/-- Claim C8 counterexample: with the clock at the largest `i64` value and
a one-day period, the `voting_ends_at` addition exceeds the `i64` range,
yet CreateProposal succeeds instead of failing with `ArithmeticOverflow`,
and the intermediate `i64` sum silently wraps to a negative value. -/
theorem c8_counterexample_unchecked_addition :
    createOverflowDemo.isOk = true ∧
    (2 ^ 63 : Int) ≤ 2 ^ 63 - 1 + 86400 ∧
    i64wrap (2 ^ 63 - 1 + 86400) < 0 := by
  refine ⟨by decide, by norm_num, ?_⟩
  unfold i64wrap
  decide

/-- Claim C8 (amended): no addition in the source handlers is checked —
neither handler can ever return `ArithmeticOverflow`, and the stored
`voting_ends_at` is the `i64`-wrapped, `u64`-cast value of the sum, i.e.
the sum reduced modulo `2 ^ 64`. -/
theorem c8_additions_unchecked :
    (∀ st f r c cn n m s u,
      process_initialize_realm st f r c cn n m s u ≠
        .error .ArithmeticOverflow) ∧
    (∀ st o p g t a n d vt opts udq days ts,
      process_create_proposal st o p g t a n d vt opts udq days ts ≠
        .error .ArithmeticOverflow) ∧
    (∀ st o p g t a n d vt opts udq days (ts : Int),
      o.is_signer = true → (alistFind st.tors t.key).isSome = true →
      (alistFind (govRun (process_create_proposal st o p g t a n d vt opts
        udq days ts) st).proposals p.key).map Proposal.voting_ends_at =
        some (u64OfI64 (ts + (days % 256 : Nat) * 86400))) := by
  refine ⟨?_, ?_, ?_⟩
  · intro st f r c cn n m s u
    unfold process_initialize_realm
    split <;> simp
  · intro st o p g t a n d vt opts udq days ts
    unfold process_create_proposal
    split
    · simp
    · split <;> simp
  · intro st o p g t a n d vt opts udq days ts hs ht
    rw [create_result st o p g t a n d vt opts udq days ts hs ht]
    simp only [Option.map_some', created_proposal, u64OfI64_i64wrap]

/-- Witness for C8 (amended): on the overflowing demo input the stored
`voting_ends_at` is the modulo-`2 ^ 64` value of the overflowed sum. -/
theorem c8_additions_unchecked_witness :
    (alistFind (govRun (process_create_proposal stSample ownerMeta
      proposalMeta governanceMeta torMeta authorityMeta "n" "d"
      .SingleChoice ["A"] false 1 (2 ^ 63 - 1))
      stSample).proposals 10).map Proposal.voting_ends_at =
      some (u64OfI64 ((2 ^ 63 - 1) + ((1 % 256 : Nat) : Int) * 86400)) :=
  c8_additions_unchecked.2.2 stSample ownerMeta proposalMeta governanceMeta
    torMeta authorityMeta "n" "d" .SingleChoice ["A"] false 1 (2 ^ 63 - 1)
    rfl (by decide)

/-- Claim C4 counterexample: with 257 options the `i as u8` insertion
truncates, so the vote-results keys of the created proposal are not
`0 .. options.len()` — the 256-key map cannot hold 257 dense keys. -/
theorem c4_counterexample_key_truncation :
    (alistFind stAfterBig.proposals 10).map
      (fun pr => pr.vote_results.map Prod.fst) ≠
      some (List.range (List.replicate 257 "x").length) := by
  have h10 : alistFind stAfterBig.proposals 10 =
      some (created_proposal ownerMeta governanceMeta "big" "d"
        .SingleChoice (List.replicate 257 "x") false 1 0) :=
    create_result stSample ownerMeta proposalMeta governanceMeta torMeta
      authorityMeta "big" "d" .SingleChoice (List.replicate 257 "x") false
      1 0 rfl (by decide)
  rw [h10]
  simp only [Option.map_some', created_proposal, List.length_replicate,
    initVoteResults_eq, Option.some.injEq]
  intro hcontra
  rw [Option.some.injEq] at hcontra
  have hlen := congrArg List.length hcontra
  simp only [List.length_map, List.length_range] at hlen
  have hmin : (257 : Nat) ⊓ 256 = 256 := rfl
  rw [hmin] at hlen
  exact absurd hlen (by decide)

/-- Claim C4 (amended): a successful CreateProposal initializes
`vote_results` as the zero map over the `u8`-truncated key range
`0 .. min(options.len(), 256)` — equal to `0 .. options.len()` only for at
most 256 options — and `total_vote_weight = 0` equals the sum of the
vote-results values. -/
theorem c4_vote_results_truncated_keys (st : GovState)
    (o p g t a : AccountMeta) (n d : String) (vt : VoteType)
    (opts : List String) (udq : Bool) (days : Nat) (ts : Int)
    (hs : o.is_signer = true)
    (ht : (alistFind st.tors t.key).isSome = true)
    (_hopts : opts ≠ []) :
    (alistFind (govRun (process_create_proposal st o p g t a n d vt opts
      udq days ts) st).proposals p.key).map
      (fun pr => (pr.vote_results, pr.total_vote_weight)) =
      some ((List.range (min opts.length 256)).map (fun k => (k, 0)), 0) ∧
    (alistFind (govRun (process_create_proposal st o p g t a n d vt opts
      udq days ts) st).proposals p.key).map
      (fun pr => ((pr.vote_results.map Prod.snd).sum,
        pr.total_vote_weight)) = some (0, 0) := by
  rw [create_result st o p g t a n d vt opts udq days ts hs ht]
  constructor
  · simp [created_proposal, initVoteResults_eq]
  · simp [created_proposal, initVoteResults_eq, List.map_map,
      Function.comp_def]

/-- Witness for C4 (amended): the two-option demo creates the zero map on
keys 0 and 1 with zero total weight. -/
theorem c4_truncated_keys_witness :
    (alistFind (govRun (process_create_proposal stSample ownerMeta
      proposalMeta governanceMeta torMeta authorityMeta "p2" "d2"
      .SingleChoice ["A", "B"] false 2 1000) stSample).proposals 10).map
      (fun pr => (pr.vote_results, pr.total_vote_weight)) =
      some ((List.range (min (["A", "B"] : List String).length 256)).map
        (fun k => (k, 0)), 0) ∧
    (alistFind (govRun (process_create_proposal stSample ownerMeta
      proposalMeta governanceMeta torMeta authorityMeta "p2" "d2"
      .SingleChoice ["A", "B"] false 2 1000) stSample).proposals 10).map
      (fun pr => ((pr.vote_results.map Prod.snd).sum,
        pr.total_vote_weight)) = some (0, 0) :=
  c4_vote_results_truncated_keys stSample ownerMeta proposalMeta
    governanceMeta torMeta authorityMeta "p2" "d2" .SingleChoice
    ["A", "B"] false 2 1000 rfl (by decide) (by decide)

/-- Claim C1: a vote recorded by CastVote carries
`vote_weight = floor(sqrt(staked_amount))` under quadratic voting and
`vote_weight = staked_amount` otherwise, and the quadratic weight is
monotone non-decreasing in the staked amount. -/
theorem c1_cast_vote_quadratic_weight :
    (∀ s, compute_vote_weight true s = Nat.sqrt s ∧
      compute_vote_weight false s = s) ∧
    (∀ st a pI tI vI vote staked now st',
      process_cast_vote st a pI tI vI vote staked now = .ok st' →
      (alistFind st'.voteRecords vI.key).map VoteRecord.vote_weight =
        (alistFind st.proposals pI.key).bind (fun pr =>
          (alistFind st.realms pr.governance).map (fun r =>
            compute_vote_weight r.use_quadratic_voting staked))) ∧
    (∀ a b, a ≤ b →
      compute_vote_weight true a ≤ compute_vote_weight true b) := by
  refine ⟨fun s => ⟨rfl, rfl⟩, ?_, ?_⟩
  · intro st a pI tI vI vote staked now st' h
    obtain ⟨proposal, realm, tor, nr, nt, hp, hr, hActive, htor, hst⟩ :=
      cast_ok_elim _ _ _ _ _ _ _ _ _ h
    rw [hst]
    show (alistFind (alistInsert st.voteRecords vI.key _) vI.key).map
      VoteRecord.vote_weight = _
    rw [alistFind_insert_self, hp]
    simp only [Option.map_some', Option.some_bind]
    rw [hr]
    simp
  · intro a b hab
    simpa [compute_vote_weight] using Nat.sqrt_le_sqrt hab

/-- Witness for C1: the demo voter stakes 10000 under the linear realm and
the stored vote record weight matches the realm policy computed by
`compute_vote_weight`; the quadratic weight is monotone at 9 ≤ 10. -/
theorem c1_cast_vote_weight_witness :
    ((alistFind stAfterCast.voteRecords 40).map VoteRecord.vote_weight =
      (alistFind stLinear.proposals 20).bind (fun pr =>
        (alistFind stLinear.realms pr.governance).map (fun r =>
          compute_vote_weight r.use_quadratic_voting 10000))) ∧
    compute_vote_weight true 9 ≤ compute_vote_weight true 10 :=
  ⟨c1_cast_vote_quadratic_weight.2.1 stLinear authorityMeta
    activeProposalMeta torMeta voteRecordMeta (Vote.SingleChoice 0)
    10000 10 stAfterCast rfl,
   c1_cast_vote_quadratic_weight.2.2 9 10 (by decide)⟩
